import Mathlib

/-!
Verification of the homebrew-sync batch-probe and result-aggregation logic.

The Python program (src/homebrew-sync/homebrew-sync.py) fans out read-only
probes against an external package tool through worker pools and aggregates
success/failure results into a report.  We embed the relevant functions
shallowly: external adapter calls become oracle functions returning
`Except String _` (an `Except.error` models a Python exception raised by the
call), the nondeterministic completion order of `as_completed` becomes an
explicit `order` argument (a permutation of the submitted items), and
`ThreadPoolExecutor(max_workers = w)` becomes `mkPool w`, which models
CPython's behaviour of raising `ValueError` when `w = 0`.
-/

deriving instance DecidableEq for Except

namespace BrewSync

/-- Models CPython `concurrent.futures.ThreadPoolExecutor(max_workers = w)`:
constructing a pool with `max_workers <= 0` raises
`ValueError: max_workers must be greater than 0`; otherwise it succeeds. -/
def mkPool (maxWorkers : Nat) : Except String Unit :=
  if maxWorkers = 0 then Except.error "ValueError: max_workers must be greater than 0"
  else Except.ok ()

/-- Bool test: the probe outcome is a normal return of `True`. -/
def isOkTrue : Except String Bool → Bool
  | Except.ok true => true
  | _ => false

/-- Bool test: the call raised an exception. -/
def isErr {α : Type} : Except String α → Bool
  | Except.error _ => true
  | _ => false

/-- Character-list version of "starts with". -/
def startsWithChars : List Char → List Char → Bool
  | [], _ => true
  | _ :: _, [] => false
  | a :: as, b :: bs => a == b && startsWithChars as bs

/-- Character-list version of substring containment. -/
def containsChars (pat : List Char) : List Char → Bool
  | [] => startsWithChars pat []
  | b :: bs => startsWithChars pat (b :: bs) || containsChars pat bs

/-- Python's `pat in s` substring test on strings. -/
def strContains (s pat : String) : Bool := containsChars pat.data s.data

/-- ASCII whitespace, as Python's `str.strip()` removes (restricted to the
ASCII range, which is all that brew output contains). -/
def isPySpace (c : Char) : Bool :=
  c == ' ' || c == '\t' || c == '\n' || c == '\r' || c == '\x0b' || c == '\x0c'

/-- Drop leading characters satisfying `p`. -/
def dropWhileChars (p : Char → Bool) : List Char → List Char
  | [] => []
  | c :: cs => if p c then dropWhileChars p cs else c :: cs

/-- Python's `s.strip()`: remove leading and trailing whitespace. -/
def pyStrip (s : String) : String :=
  String.mk ((dropWhileChars isPySpace
    ((dropWhileChars isPySpace s.data).reverse)).reverse)

/-- One entry of the caveat list: the Python dict
`{"cask" | "formula": name, "caveat": text}` built by `get_caveat`. -/
structure CaveatEntry where
  kind : String
  name : String
  caveat : String
deriving Repr, DecidableEq

/-- `get_caveat(brew, name, is_cask)` from the source, with the adapter call
`run_capture(f"{brew} info {flag} --caveats {name}")` abstracted into
`adapterOut` (its captured stdout, or the exception it raised).  The stdout is
stripped; a non-empty remainder becomes a keyed entry, otherwise `None`. -/
def get_caveat (name : String) (is_cask : Bool) (adapterOut : Except String String) :
    Except String (Option CaveatEntry) :=
  match adapterOut with
  | Except.error e => Except.error e
  | Except.ok out =>
    let caveat := pyStrip out
    Except.ok (if caveat = "" then none
      else some (CaveatEntry.mk (if is_cask then "cask" else "formula") name caveat))

/-- The item list built by `collect_caveats_parallel`:
`[(name, False) for name in formulae] + [(name, True) for name in casks]`. -/
def caveatItems (formulae casks : List String) : List (String × Bool) :=
  formulae.map (fun n => (n, false)) ++ casks.map (fun n => (n, true))

/-- The result-collection loop of `collect_caveats_parallel`: for each future
in completion order, `future.result()` either re-raises the probe's exception
(aborting the loop and the whole runner, since there is no try/except here in
the source) or yields an `Option CaveatEntry`; non-`None` results are
appended. -/
def collect_caveats_loop (adapter : String → Bool → Except String String) :
    List (String × Bool) → List CaveatEntry → Except String (List CaveatEntry)
  | [], caveats => Except.ok caveats
  | (name, is_cask) :: rest, caveats =>
    match get_caveat name is_cask (adapter name is_cask) with
    | Except.error e => Except.error e
    | Except.ok none => collect_caveats_loop adapter rest caveats
    | Except.ok (some entry) => collect_caveats_loop adapter rest (caveats ++ [entry])

/-- `collect_caveats_parallel(brew, formulae, casks)` from the source.
`adapter` gives each probe's captured stdout (or exception); `order` is the
order in which `as_completed` yields the futures (any permutation of the
submitted items).  The pool is created with `max_workers = min(8, len(items))`
before any probing happens. -/
def collect_caveats_parallel (adapter : String → Bool → Except String String)
    (formulae casks : List String) (order : List (String × Bool)) :
    Except String (List CaveatEntry) :=
  let items := caveatItems formulae casks
  match mkPool (min 8 items.length) with
  | Except.error e => Except.error e
  | Except.ok _ => collect_caveats_loop adapter order []

/-- The three signals consulted by `is_cask_installed`, as the source reads
them: the line list of `brew list --cask`, the stdout of
`brew info --cask NAME`, and whether `/Applications/NAME.app` or
`~/Applications/NAME.app` exists.  The two adapter calls can raise. -/
structure CaskSignals where
  listOut : Except String (List String)
  infoOut : Except String String
  appExists : Bool

/-- `is_cask_installed(brew, name)` from the source: three detection methods
evaluated left to right with short-circuit OR (`any(m() for m in methods)`):
(1) `name` is a line of `brew list --cask`; (2) `"Not installed"` does not
occur in `brew info --cask name`; (3) an application bundle path exists.
An exception from an adapter call propagates out of the probe. -/
def is_cask_installed (name : String) (s : CaskSignals) : Except String Bool :=
  match s.listOut with
  | Except.error e => Except.error e
  | Except.ok lines =>
    if name ∈ lines then Except.ok true
    else match s.infoOut with
      | Except.error e => Except.error e
      | Except.ok info =>
        if strContains info "Not installed" then Except.ok s.appExists
        else Except.ok true

/-- The result-collection loop of `filter_missing_casks_parallel`: each
`future.result()` is wrapped in try/except; a normal `False` return appends
the name to `to_install`, an exception logs a warning for the name and also
appends it ("assume missing on error"). -/
def filter_missing_loop (probe : String → Except String Bool) :
    List String → List String → List String → List String × List String
  | [], to_install, warnings => (to_install, warnings)
  | name :: rest, to_install, warnings =>
    match probe name with
    | Except.ok true => filter_missing_loop probe rest to_install warnings
    | Except.ok false => filter_missing_loop probe rest (to_install ++ [name]) warnings
    | Except.error _ => filter_missing_loop probe rest (to_install ++ [name]) (warnings ++ [name])

/-- `filter_missing_casks_parallel(brew, casks)` from the source.  `probe`
abstracts the `is_cask_installed` future for each name; `order` is the
completion order of `as_completed` (a permutation of `casks`).  The pool is
created with `max_workers = min(8, len(casks))` before any probing.  The
second component of the result is the list of names for which
`log_warning("Failed to check cask: ...")` fired. -/
def filter_missing_casks_parallel (probe : String → Except String Bool)
    (casks order : List String) : Except String (List String × List String) :=
  match mkPool (min 8 casks.length) with
  | Except.error e => Except.error e
  | Except.ok _ => Except.ok (filter_missing_loop probe order [] [])

/-- The `result` dictionary of `main`, flattened into named fields:
`result["success"]["install"]["formula"]` becomes `success_install_formula`,
and so on; `result["success"]["cask"]` (the top-level alias written by
`print_result`) becomes `success_cask`, likewise `error_cask`. -/
structure Report where
  success_install_formula : List String
  success_install_cask : List String
  success_upgrade_formula : List String
  success_cask : List String
  error_install_formula : List String
  error_install_cask : List String
  error_upgrade_formula : List String
  error_cask : List String
  info : List CaveatEntry
deriving Repr, DecidableEq

/-- The initial `result` dictionary built in `main`: every list empty. -/
def initial_result : Report := Report.mk [] [] [] [] [] [] [] [] []

/-- One batched mutating adapter invocation (`run_live` of a brew
update/upgrade/install command): the operation and the item arguments
joined onto that single command line. -/
structure MutateCall where
  op : String
  args : List String
deriving Repr, DecidableEq

/-- `update_and_upgrade(brew, result)` from the source.  `outdated` is the
line list of `brew outdated --formula --quiet`; `upgradeOk` is whether the
single batched `brew upgrade ...` call exited zero (`check=True` raises on a
non-zero exit, caught by the `except` which appends all of `outdated` to the
upgrade error list).  Returns the adapter calls issued and the new report. -/
def update_and_upgrade (outdated : List String) (upgradeOk : Bool) (r : Report) :
    List MutateCall × Report :=
  if outdated.isEmpty then ([MutateCall.mk "update" []], r)
  else
    ([MutateCall.mk "update" [], MutateCall.mk "upgrade" outdated],
      if upgradeOk then
        { r with success_upgrade_formula := r.success_upgrade_formula ++ outdated }
      else
        { r with error_upgrade_formula := r.error_upgrade_formula ++ outdated })

/-- The to-install computation of `install_formulae`:
`installed = set(run_capture(f"{brew} list --formula").stdout.splitlines())`
then `[name for name in formulae if name not in installed]`.  `listing` is
that stdout line list; only this one signal is consulted. -/
def formulae_to_install (listing formulae : List String) : List String :=
  formulae.filter (fun name => !(decide (name ∈ listing)))

/-- `install_formulae(brew, formulae, result)` from the source: one batched
`brew install ...` call over the whole to-install list (skipped when it is
empty); its exit status `installOk` decides whether all of the list goes to
the success or the error side. -/
def install_formulae (listing : List String) (installOk : Bool)
    (formulae : List String) (r : Report) : List MutateCall × Report :=
  let to_install := formulae_to_install listing formulae
  if to_install.isEmpty then ([], r)
  else
    ([MutateCall.mk "install" to_install],
      if installOk then
        { r with success_install_formula := r.success_install_formula ++ to_install }
      else
        { r with error_install_formula := r.error_install_formula ++ to_install })

/-- `install_casks(brew, casks, result)` from the source: runs the parallel
missing-cask filter, then one batched `brew install --cask ...` call over the
whole to-install list (skipped when empty); `installOk` is its exit status.
Returns the mutate calls, the warning names from the filter, and the new
report; an exception from the filter (the empty-batch pool failure)
propagates. -/
def install_casks (probe : String → Except String Bool) (casks order : List String)
    (installOk : Bool) (r : Report) :
    Except String (List MutateCall × List String × Report) :=
  match filter_missing_casks_parallel probe casks order with
  | Except.error e => Except.error e
  | Except.ok (to_install, warnings) =>
    if to_install.isEmpty then Except.ok ([], warnings, r)
    else Except.ok ([MutateCall.mk "install --cask" to_install], warnings,
      if installOk then
        { r with success_install_cask := r.success_install_cask ++ to_install }
      else
        { r with error_install_cask := r.error_install_cask ++ to_install })

/-- `print_result(result)` from the source: before printing it writes the
top-level aliases `result["success"]["cask"] = result["success"]["install"]["cask"]`
and `result["error"]["cask"] = result["error"]["install"]["cask"]`, then dumps
the structure.  Returns the report as printed. -/
def print_result (r : Report) : Report :=
  { r with success_cask := r.success_install_cask, error_cask := r.error_install_cask }

/-- The external world of one run, as `main` consumes it after configuration
loading and tool discovery: the adapter outputs of the query calls, the exit
statuses of the batched mutate calls, and the completion orders of the two
worker pools. -/
structure Env where
  outdated : List String
  upgradeOk : Bool
  formulaListing : List String
  formulaInstallOk : Bool
  caskProbe : String → Except String Bool
  caskOrder : List String
  caskInstallOk : Bool
  caveatAdapter : String → Bool → Except String String
  caveatOrder : List (String × Bool)

/-- The tail of `main` after configuration loading and tool discovery:
`update_and_upgrade`, `install_formulae`, `install_casks`,
`collect_caveats_parallel` into `result["info"]`, then `print_result`.
`Except.ok rep` means the run reached the final print and exited zero with
`rep` as the printed report; `Except.error` means an uncaught exception
escaped `main` (no report printed, non-zero exit). -/
def main_run (env : Env) (formulae casks : List String) : Except String Report :=
  let r1 := (update_and_upgrade env.outdated env.upgradeOk initial_result).2
  let r2 := (install_formulae env.formulaListing env.formulaInstallOk formulae r1).2
  match install_casks env.caskProbe casks env.caskOrder env.caskInstallOk r2 with
  | Except.error e => Except.error e
  | Except.ok (_, _, r3) =>
    match collect_caveats_parallel env.caveatAdapter formulae casks env.caveatOrder with
    | Except.error e => Except.error e
    | Except.ok info => Except.ok (print_result { r3 with info := info })

/-- The expected finding for one caveat item, used to state what the
collector returns: the entry `get_caveat` yields when the adapter call
returns, `none` when the stripped output is empty or the call raised. -/
def caveat_finding (adapter : String → Bool → Except String String)
    (p : String × Bool) : Option CaveatEntry :=
  match adapter p.1 p.2 with
  | Except.error _ => none
  | Except.ok out =>
    if pyStrip out = "" then none
    else some (CaveatEntry.mk (if p.2 then "cask" else "formula") p.1 (pyStrip out))

/-! ### Helper lemmas -/

theorem filter_missing_loop_eq (probe : String → Except String Bool)
    (order acc wacc : List String) :
    filter_missing_loop probe order acc wacc =
      (acc ++ order.filter (fun n => !(isOkTrue (probe n))),
       wacc ++ order.filter (fun n => isErr (probe n))) := by
  induction order generalizing acc wacc with
  | nil => simp [filter_missing_loop]
  | cons name rest ih =>
    cases hp : probe name with
    | ok b =>
      cases b <;>
        simp [filter_missing_loop, hp, isOkTrue, isErr, ih, List.filter_cons]
    | error e =>
      simp [filter_missing_loop, hp, isOkTrue, isErr, ih, List.filter_cons]

theorem filter_missing_casks_parallel_ok (probe : String → Except String Bool)
    (casks order : List String) (h : casks ≠ []) :
    filter_missing_casks_parallel probe casks order =
      Except.ok (order.filter (fun n => !(isOkTrue (probe n))),
        order.filter (fun n => isErr (probe n))) := by
  have hl : casks.length ≠ 0 := fun hz => h (List.length_eq_zero.mp hz)
  have hmin : 0 < min 8 casks.length :=
    lt_min (by norm_num) (Nat.pos_of_ne_zero hl)
  simp [filter_missing_casks_parallel, mkPool, hmin.ne', filter_missing_loop_eq]

theorem collect_caveats_loop_ok (adapter : String → Bool → Except String String)
    (order : List (String × Bool)) (acc : List CaveatEntry)
    (hok : ∀ p ∈ order, isErr (adapter p.1 p.2) = false) :
    collect_caveats_loop adapter order acc =
      Except.ok (acc ++ order.filterMap (caveat_finding adapter)) := by
  induction order generalizing acc with
  | nil => simp [collect_caveats_loop]
  | cons p rest ih =>
    obtain ⟨name, is_cask⟩ := p
    have h1 : isErr (adapter name is_cask) = false :=
      hok (name, is_cask) (List.mem_cons_self _ _)
    have hrest : ∀ q ∈ rest, isErr (adapter q.1 q.2) = false :=
      fun q hq => hok q (List.mem_cons_of_mem _ hq)
    cases ha : adapter name is_cask with
    | error e => rw [ha] at h1; simp [isErr] at h1
    | ok out =>
      by_cases ht : pyStrip out = ""
      · have hstep : collect_caveats_loop adapter ((name, is_cask) :: rest) acc =
            collect_caveats_loop adapter rest acc := by
          simp [collect_caveats_loop, get_caveat, ha, ht]
        rw [hstep, ih acc hrest]
        simp [caveat_finding, ha, ht, List.filterMap_cons]
      · have hstep : collect_caveats_loop adapter ((name, is_cask) :: rest) acc =
            collect_caveats_loop adapter rest
              (acc ++ [CaveatEntry.mk (if is_cask then "cask" else "formula") name (pyStrip out)]) := by
          simp [collect_caveats_loop, get_caveat, ha, ht]
        rw [hstep, ih _ hrest]
        simp [caveat_finding, ha, ht, List.filterMap_cons]

theorem collect_caveats_parallel_ok (adapter : String → Bool → Except String String)
    (formulae casks : List String) (order : List (String × Bool))
    (hne : caveatItems formulae casks ≠ [])
    (hok : ∀ p ∈ order, isErr (adapter p.1 p.2) = false) :
    collect_caveats_parallel adapter formulae casks order =
      Except.ok (order.filterMap (caveat_finding adapter)) := by
  have hl : (caveatItems formulae casks).length ≠ 0 :=
    fun hz => hne (List.length_eq_zero.mp hz)
  have hmin : 0 < min 8 (caveatItems formulae casks).length :=
    lt_min (by norm_num) (Nat.pos_of_ne_zero hl)
  simp [collect_caveats_parallel, mkPool, hmin.ne', collect_caveats_loop_ok adapter order [] hok]

theorem length_filter_split {α : Type} (p : α → Bool) (l : List α) :
    (l.filter (fun a => !(p a))).length + (l.filter p).length = l.length := by
  induction l with
  | nil => simp
  | cons a l ih =>
    cases hp : p a <;> simp [List.filter_cons, hp] <;> omega

theorem isEmpty_false_of_ne_nil {α : Type} {l : List α} (h : l ≠ []) :
    l.isEmpty = false := by
  cases l with
  | nil => exact absurd rfl h
  | cons a t => rfl

theorem update_and_upgrade_error_record (outdated : List String) (r : Report)
    (h : outdated ≠ []) :
    ((update_and_upgrade outdated false r).2).error_upgrade_formula =
      r.error_upgrade_formula ++ outdated := by
  cases outdated with
  | nil => exact absurd rfl h
  | cons a t => rfl

theorem install_formulae_preserves_upgrade (listing : List String) (ok : Bool)
    (formulae : List String) (r : Report) :
    ((install_formulae listing ok formulae r).2).error_upgrade_formula =
      r.error_upgrade_formula := by
  by_cases hemp : (formulae_to_install listing formulae).isEmpty = true <;>
    cases ok <;> simp [install_formulae, hemp]

theorem install_casks_ok_of_ne_nil (probe : String → Except String Bool)
    (casks order : List String) (ok : Bool) (r : Report) (h : casks ≠ []) :
    ∃ calls w r3, install_casks probe casks order ok r = Except.ok (calls, w, r3) ∧
      r3.error_upgrade_formula = r.error_upgrade_formula := by
  by_cases hemp : (order.filter (fun n => !(isOkTrue (probe n)))).isEmpty = true
  · refine ⟨[], order.filter (fun n => isErr (probe n)), r, ?_, rfl⟩
    simp [install_casks, filter_missing_casks_parallel_ok probe casks order h, hemp]
  · cases ok with
    | true =>
      refine ⟨[MutateCall.mk "install --cask"
          (order.filter (fun n => !(isOkTrue (probe n))))],
        order.filter (fun n => isErr (probe n)),
        { r with success_install_cask :=
            r.success_install_cask ++ order.filter (fun n => !(isOkTrue (probe n))) },
        ?_, rfl⟩
      simp [install_casks, filter_missing_casks_parallel_ok probe casks order h, hemp]
    | false =>
      refine ⟨[MutateCall.mk "install --cask"
          (order.filter (fun n => !(isOkTrue (probe n))))],
        order.filter (fun n => isErr (probe n)),
        { r with error_install_cask :=
            r.error_install_cask ++ order.filter (fun n => !(isOkTrue (probe n))) },
        ?_, rfl⟩
      simp [install_casks, filter_missing_casks_parallel_ok probe casks order h, hemp]

/-! ### Claim theorems -/

/-- Claim C1: the claim says an empty batch never starts a worker pool and
returns immediately with an empty result, raising no exception.  The code
does the opposite: with zero submitted items both batch runners construct
`ThreadPoolExecutor(max_workers = min(8, 0)) = ThreadPoolExecutor(max_workers = 0)`,
which raises `ValueError`; this theorem evaluates both runners at the empty
batch and shows the exception. -/
theorem c1_empty_batch_raises_value_error :
    collect_caveats_parallel (fun _ _ => Except.ok "") [] [] [] =
      Except.error "ValueError: max_workers must be greater than 0" ∧
    filter_missing_casks_parallel (fun _ => Except.ok false) [] [] =
      Except.error "ValueError: max_workers must be greater than 0" :=
  ⟨rfl, rfl⟩

/-- Claim C2 counterexample: in the caveat collector a probe exception is NOT
caught — `future.result()` is called with no try/except, so the exception
propagates out of the batch runner and the sibling outcomes already gathered
are discarded.  Concretely, with five formulae where the probe of "pkg3"
raises "boom" and every sibling returns caveat text, the runner returns the
exception instead of the four sibling findings. -/
theorem c2_counterexample_collector_propagates :
    collect_caveats_parallel
      (fun n _ => if n = "pkg3" then Except.error "boom" else Except.ok "text")
      ["pkg1", "pkg2", "pkg3", "pkg4", "pkg5"] []
      [("pkg1", false), ("pkg2", false), ("pkg3", false), ("pkg4", false), ("pkg5", false)] =
      Except.error "boom" := by
  rfl

/-- Claim C2 amended: failure isolation holds for the missing-cask filter
only.  There, a probe that raises for one cask never aborts the batch: the
runner still returns normally and every sibling in the completion order
contributes its outcome (it is either determined installed or appended to the
to-install list). -/
theorem c2_filter_failure_isolated (probe : String → Except String Bool)
    (casks order : List String) (name e : String)
    (hperm : List.Perm order casks) (hmem : name ∈ order)
    (herr : probe name = Except.error e) :
    ∃ ti w, filter_missing_casks_parallel probe casks order = Except.ok (ti, w) ∧
      ∀ m ∈ order, isOkTrue (probe m) = true ∨ m ∈ ti := by
  have hne : casks ≠ [] := by
    intro hc
    rw [hc] at hperm
    rw [List.perm_nil.mp hperm] at hmem
    exact List.not_mem_nil name hmem
  refine ⟨order.filter (fun n => !(isOkTrue (probe n))),
    order.filter (fun n => isErr (probe n)),
    filter_missing_casks_parallel_ok probe casks order hne, ?_⟩
  intro m hm
  cases hcase : isOkTrue (probe m) with
  | true => exact Or.inl rfl
  | false =>
    exact Or.inr (List.mem_filter.mpr ⟨hm, by simp [hcase]⟩)

/-- Claim C2 witness. -/
theorem c2_filter_failure_isolated_witness :
    ∃ ti w, filter_missing_casks_parallel
        (fun n => if n = "pkg3" then Except.error "boom" else Except.ok true)
        ["pkg1", "pkg2", "pkg3", "pkg4", "pkg5"]
        ["pkg1", "pkg2", "pkg3", "pkg4", "pkg5"] = Except.ok (ti, w) ∧
      ∀ m ∈ ["pkg1", "pkg2", "pkg3", "pkg4", "pkg5"],
        isOkTrue ((fun n => if n = "pkg3" then Except.error "boom" else Except.ok true) m) =
          true ∨ m ∈ ti :=
  c2_filter_failure_isolated _ _ _ "pkg3" "boom" (List.Perm.refl _) (by decide) (by decide)

/-- Claim C4: in the missing-cask filter, a cask whose installed-check probe
raises is treated as not installed: it is appended to the returned to-install
list (so installation is still attempted) and a warning is logged for it —
the failure is neither silently swallowed nor the item dropped. -/
theorem c4_probe_failure_conservative (probe : String → Except String Bool)
    (casks order : List String) (name e : String)
    (hperm : List.Perm order casks) (hmem : name ∈ casks)
    (herr : probe name = Except.error e) :
    ∃ ti w, filter_missing_casks_parallel probe casks order = Except.ok (ti, w) ∧
      name ∈ ti ∧ name ∈ w := by
  have hne : casks ≠ [] := List.ne_nil_of_mem hmem
  have hord : name ∈ order := (hperm.mem_iff).mpr hmem
  refine ⟨order.filter (fun n => !(isOkTrue (probe n))),
    order.filter (fun n => isErr (probe n)),
    filter_missing_casks_parallel_ok probe casks order hne, ?_, ?_⟩
  · exact List.mem_filter.mpr ⟨hord, by simp [herr, isOkTrue]⟩
  · exact List.mem_filter.mpr ⟨hord, by simp [herr, isErr]⟩

/-- Claim C4 witness. -/
theorem c4_probe_failure_conservative_witness :
    ∃ ti w, filter_missing_casks_parallel
        (fun n => if n = "firefox" then Except.error "probe crashed" else Except.ok true)
        ["chrome", "firefox"] ["firefox", "chrome"] = Except.ok (ti, w) ∧
      "firefox" ∈ ti ∧ "firefox" ∈ w :=
  c4_probe_failure_conservative _ _ _ "firefox" "probe crashed"
    (by decide) (by decide) (by decide)

/-- Claim C5 counterexample: the claim quantifies over all batch sizes
0 ≤ N, but at N = 0 the missing-cask filter does not produce zero outcomes —
pool construction raises `ValueError`, so no result is returned at all. -/
theorem c5_counterexample_empty_batch :
    filter_missing_casks_parallel (fun _ => Except.ok true) [] [] =
      Except.error "ValueError: max_workers must be greater than 0" := rfl

/-- Claim C5 amended: for every batch of N ≥ 1 submitted casks the
missing-cask filter produces exactly one outcome per submitted item,
regardless of how many probes fail: the to-install list is exactly the
completion-order sublist of items whose probe did not return `True`, and its
length plus the number of items determined installed equals N — no
duplicates, no omissions. -/
theorem c5_exactly_one_outcome_per_item (probe : String → Except String Bool)
    (casks order : List String) (hperm : List.Perm order casks) (hne : casks ≠ []) :
    ∃ ti w, filter_missing_casks_parallel probe casks order = Except.ok (ti, w) ∧
      ti = order.filter (fun n => !(isOkTrue (probe n))) ∧
      ti.length + (order.filter (fun n => isOkTrue (probe n))).length = casks.length := by
  refine ⟨order.filter (fun n => !(isOkTrue (probe n))),
    order.filter (fun n => isErr (probe n)),
    filter_missing_casks_parallel_ok probe casks order hne, rfl, ?_⟩
  rw [length_filter_split (fun n => isOkTrue (probe n)) order]
  exact hperm.length_eq

/-- Claim C5 witness. -/
theorem c5_exactly_one_outcome_per_item_witness :
    ∃ ti w, filter_missing_casks_parallel
        (fun n => if n = "a" then Except.ok true
          else if n = "b" then Except.ok false else Except.error "boom")
        ["a", "b", "c"] ["c", "a", "b"] = Except.ok (ti, w) ∧
      ti = ["c", "a", "b"].filter
        (fun n => !(isOkTrue ((fun n => if n = "a" then Except.ok true
          else if n = "b" then Except.ok false else Except.error "boom") n))) ∧
      ti.length + (["c", "a", "b"].filter
        (fun n => isOkTrue ((fun n => if n = "a" then Except.ok true
          else if n = "b" then Except.ok false else Except.error "boom") n))).length = 3 := by
  have h := c5_exactly_one_outcome_per_item
    (fun n => if n = "a" then Except.ok true
      else if n = "b" then Except.ok false else Except.error "boom")
    ["a", "b", "c"] ["c", "a", "b"] (by decide) (by decide)
  simpa using h

/-- Claim C3: the installed-check probe returns `True` exactly when at least
one of the three signals is positive — the name is a line of the cask
listing, or the info output does not contain "Not installed", or an
application bundle path exists (OR semantics) — and a cask whose probe
returned `True` is excluded from the to-install result of the missing-cask
filter. -/
theorem c3_installed_or_semantics (name : String) (lines : List String)
    (info : String) (app : Bool) (probe : String → Except String Bool)
    (casks order ti w : List String)
    (hprobe : probe name =
      is_cask_installed name (CaskSignals.mk (Except.ok lines) (Except.ok info) app))
    (hpos : (decide (name ∈ lines) || !(strContains info "Not installed") || app) = true)
    (hres : filter_missing_casks_parallel probe casks order = Except.ok (ti, w)) :
    is_cask_installed name (CaskSignals.mk (Except.ok lines) (Except.ok info) app) =
      Except.ok (decide (name ∈ lines) || !(strContains info "Not installed") || app) ∧
    name ∉ ti := by
  have hsig : is_cask_installed name
      (CaskSignals.mk (Except.ok lines) (Except.ok info) app) =
      Except.ok (decide (name ∈ lines) || !(strContains info "Not installed") || app) := by
    by_cases h1 : name ∈ lines
    · simp [is_cask_installed, h1]
    · by_cases h2 : strContains info "Not installed" = true
      · simp [is_cask_installed, h1, h2]
      · rw [Bool.not_eq_true] at h2
        simp [is_cask_installed, h1, h2]
  refine ⟨hsig, ?_⟩
  have hti : ti = order.filter (fun n => !(isOkTrue (probe n))) := by
    by_cases hc : casks = []
    · rw [hc] at hres
      simp [filter_missing_casks_parallel, mkPool] at hres
    · rw [filter_missing_casks_parallel_ok probe casks order hc] at hres
      exact ((Prod.mk.injEq _ _ _ _).mp (Except.ok.inj hres)).1.symm
  rw [hti]
  intro hmem
  have hq : !(isOkTrue (probe name)) = true := by
    simpa using (List.mem_filter.mp hmem).2
  rw [hprobe, hsig, hpos] at hq
  simp [isOkTrue] at hq

/-- Claim C3 witness. -/
theorem c3_installed_or_semantics_witness :
    is_cask_installed "iterm2"
      (CaskSignals.mk (Except.ok ["iterm2"]) (Except.ok "") false) =
      Except.ok (decide ("iterm2" ∈ ["iterm2"]) ||
        !(strContains "" "Not installed") || false) ∧
    "iterm2" ∉ ([] : List String) :=
  c3_installed_or_semantics "iterm2" ["iterm2"] "" false (fun _ => Except.ok true)
    ["iterm2"] ["iterm2"] [] [] (by decide) (by decide) (by decide)

/-- Claim C7 counterexample: with zero configured formulae and casks the
collector does not return the empty subset — pool construction raises
`ValueError`, so the runner returns no result at all. -/
theorem c7_counterexample_empty_config :
    collect_caveats_parallel (fun _ _ => Except.ok "Caveat: text") [] [] [] =
      Except.error "ValueError: max_workers must be greater than 0" := rfl

/-- Concrete adapter for the C7 witness: "git" has caveat text, "wget" has
whitespace-only output. -/
def adC7 : String → Bool → Except String String :=
  fun n _ => if n = "git" then Except.ok "Caveat: run git init" else Except.ok "   "

/-- Claim C7 amended: provided at least one formula or cask is configured and
no caveat probe raises, the collector probes every configured formula and
cask and returns exactly the findings of the items whose stripped probe
output is non-empty, each keyed "cask" for casks and "formula" for formulae
with the stripped text; an item whose stripped output is empty contributes
nothing. -/
theorem c7_caveats_exactly_nonempty (adapter : String → Bool → Except String String)
    (formulae casks : List String) (order : List (String × Bool))
    (hperm : List.Perm order (caveatItems formulae casks))
    (hne : caveatItems formulae casks ≠ [])
    (hok : ∀ p ∈ order, isErr (adapter p.1 p.2) = false) :
    collect_caveats_parallel adapter formulae casks order =
      Except.ok (order.filterMap (caveat_finding adapter)) ∧
    ∀ p ∈ order, ∀ out, adapter p.1 p.2 = Except.ok out →
      (pyStrip out = "" → caveat_finding adapter p = none) ∧
      (pyStrip out ≠ "" → caveat_finding adapter p =
        some (CaveatEntry.mk (if p.2 then "cask" else "formula") p.1 (pyStrip out))) := by
  refine ⟨collect_caveats_parallel_ok adapter formulae casks order hne hok, ?_⟩
  intro p _ out hout
  constructor
  · intro hempty
    simp [caveat_finding, hout, hempty]
  · intro hnonempty
    simp [caveat_finding, hout, hnonempty]

/-- Claim C7 witness. -/
theorem c7_caveats_exactly_nonempty_witness :
    collect_caveats_parallel adC7 ["git", "wget"] [] [("git", false), ("wget", false)] =
      Except.ok ([("git", false), ("wget", false)].filterMap (caveat_finding adC7)) ∧
    ∀ p ∈ [("git", false), ("wget", false)], ∀ out, adC7 p.1 p.2 = Except.ok out →
      (pyStrip out = "" → caveat_finding adC7 p = none) ∧
      (pyStrip out ≠ "" → caveat_finding adC7 p =
        some (CaveatEntry.mk (if p.2 then "cask" else "formula") p.1 (pyStrip out))) :=
  c7_caveats_exactly_nonempty adC7 ["git", "wget"] [] [("git", false), ("wget", false)]
    (List.Perm.refl _) (by decide) (by decide)

/-- Claim C10: the formula install step decides installedness from the
listing signal alone — the attempted set is exactly the configured formulae
that do not appear as a line of the `brew list --formula` output, in
configuration order (a sublist of the configuration); no other signal enters
the computation, so a formula present on disk but absent from the listing is
still attempted. -/
theorem c10_formula_single_signal (listing formulae : List String) :
    formulae_to_install listing formulae =
      formulae.filter (fun n => !(decide (n ∈ listing))) ∧
    List.Sublist (formulae_to_install listing formulae) formulae ∧
    (∀ n, n ∈ formulae_to_install listing formulae ↔ n ∈ formulae ∧ n ∉ listing) ∧
    (∀ diskPresent : String → Bool, ∀ n, n ∈ formulae → n ∉ listing →
      diskPresent n = true → n ∈ formulae_to_install listing formulae) := by
  refine ⟨rfl, List.filter_sublist _, ?_, ?_⟩
  · intro n
    simp [formulae_to_install]
  · intro disk n hf hl _
    simp [formulae_to_install, hf, hl]

/-- Claim C10 witness: "wget" is on disk but not in the listing, and is still
attempted. -/
theorem c10_formula_single_signal_witness :
    "wget" ∈ formulae_to_install ["git"] ["git", "wget"] :=
  (c10_formula_single_signal ["git"] ["git", "wget"]).2.2.2
    (fun _ => true) "wget" (by decide) (by decide) rfl

/-- Claim C6: in every final printed report the top-level derived views equal
their source views — `success.cask = success.install.cask` and
`error.cask = error.install.cask` — for any run that reached the final print,
whatever outcomes were recorded along the way, because `print_result`
computes the aliases from the source views just before printing. -/
theorem c6_alias_views_consistent (env : Env) (formulae casks : List String)
    (rep : Report) (h : main_run env formulae casks = Except.ok rep) :
    rep.success_cask = rep.success_install_cask ∧
    rep.error_cask = rep.error_install_cask := by
  simp only [main_run] at h
  rcases hic : install_casks env.caskProbe casks env.caskOrder env.caskInstallOk
      ((install_formulae env.formulaListing env.formulaInstallOk formulae
        ((update_and_upgrade env.outdated env.upgradeOk initial_result).2)).2)
    with e | ⟨cls, w, r3⟩
  · rw [hic] at h
    exact absurd h (by simp)
  · rw [hic] at h
    rcases hcc : collect_caveats_parallel env.caveatAdapter formulae casks env.caveatOrder
      with e2 | info
    · rw [hcc] at h
      exact absurd h (by simp)
    · rw [hcc] at h
      simp only at h
      rw [← Except.ok.inj h]
      exact ⟨rfl, rfl⟩

/-- Concrete environment for the C6 witness. -/
def envC6 : Env :=
  Env.mk [] true [] true (fun _ => Except.ok true) ["iterm2"] true
    (fun _ _ => Except.ok "") [("iterm2", true)]

/-- Claim C6 witness. -/
theorem c6_alias_views_consistent_witness :
    initial_result.success_cask = initial_result.success_install_cask ∧
    initial_result.error_cask = initial_result.error_install_cask :=
  c6_alias_views_consistent envC6 [] ["iterm2"] initial_result (by decide)

/-- Claim C8: each mutating step issues exactly one batched adapter call over
the entire to-process subset for that step — never one call per item — and
its exit status yields one atomic record: on success every attempted item of
the step is appended to the step's success list, on failure every attempted
item is appended to the step's error list, with nothing tracked per item.
(The upgrade step additionally issues the unconditional argumentless
`brew update` call first.) -/
theorem c8_single_batched_call_atomic_record
    (outdated listing formulae casks order : List String)
    (upOk finOk cinOk : Bool) (probe : String → Except String Bool) (r : Report)
    (hout : outdated ≠ [])
    (hfor : formulae_to_install listing formulae ≠ [])
    (hcask : casks ≠ [])
    (hti : order.filter (fun n => !(isOkTrue (probe n))) ≠ []) :
    (update_and_upgrade outdated upOk r =
      ([MutateCall.mk "update" [], MutateCall.mk "upgrade" outdated],
        if upOk then
          { r with success_upgrade_formula := r.success_upgrade_formula ++ outdated }
        else
          { r with error_upgrade_formula := r.error_upgrade_formula ++ outdated })) ∧
    (install_formulae listing finOk formulae r =
      ([MutateCall.mk "install" (formulae_to_install listing formulae)],
        if finOk then
          { r with success_install_formula :=
              r.success_install_formula ++ formulae_to_install listing formulae }
        else
          { r with error_install_formula :=
              r.error_install_formula ++ formulae_to_install listing formulae })) ∧
    (install_casks probe casks order cinOk r =
      Except.ok
        ([MutateCall.mk "install --cask" (order.filter (fun n => !(isOkTrue (probe n))))],
          order.filter (fun n => isErr (probe n)),
          if cinOk then
            { r with success_install_cask :=
                r.success_install_cask ++ order.filter (fun n => !(isOkTrue (probe n))) }
          else
            { r with error_install_cask :=
                r.error_install_cask ++ order.filter (fun n => !(isOkTrue (probe n))) })) := by
  refine ⟨?_, ?_, ?_⟩
  · simp [update_and_upgrade, isEmpty_false_of_ne_nil hout]
  · simp [install_formulae, isEmpty_false_of_ne_nil hfor]
  · simp [install_casks, filter_missing_casks_parallel_ok probe casks order hcask,
      isEmpty_false_of_ne_nil hti]

/-- Claim C8 witness. -/
theorem c8_single_batched_call_atomic_record_witness :
    (update_and_upgrade ["jq"] false initial_result =
      ([MutateCall.mk "update" [], MutateCall.mk "upgrade" ["jq"]],
        if false then
          { initial_result with success_upgrade_formula :=
              initial_result.success_upgrade_formula ++ ["jq"] }
        else
          { initial_result with error_upgrade_formula :=
              initial_result.error_upgrade_formula ++ ["jq"] })) ∧
    (install_formulae ["git"] true ["git", "wget"] initial_result =
      ([MutateCall.mk "install" (formulae_to_install ["git"] ["git", "wget"])],
        if true then
          { initial_result with success_install_formula :=
              initial_result.success_install_formula ++
                formulae_to_install ["git"] ["git", "wget"] }
        else
          { initial_result with error_install_formula :=
              initial_result.error_install_formula ++
                formulae_to_install ["git"] ["git", "wget"] })) ∧
    (install_casks (fun _ => Except.ok false) ["iterm2"] ["iterm2"] false initial_result =
      Except.ok
        ([MutateCall.mk "install --cask" (["iterm2"].filter
            (fun n => !(isOkTrue ((fun _ => Except.ok false) n))))],
          ["iterm2"].filter (fun n => isErr ((fun _ => (Except.ok false : Except String Bool)) n)),
          if false then
            { initial_result with success_install_cask :=
                initial_result.success_install_cask ++
                  (["iterm2"].filter (fun n => !(isOkTrue ((fun _ => Except.ok false) n)))) }
          else
            { initial_result with error_install_cask :=
                initial_result.error_install_cask ++
                  (["iterm2"].filter (fun n => !(isOkTrue ((fun _ => Except.ok false) n)))) })) :=
  c8_single_batched_call_atomic_record ["jq"] ["git"] ["git", "wget"] ["iterm2"] ["iterm2"]
    false true false (fun _ => Except.ok false) initial_result
    (by decide) (by decide) (by decide) (by decide)

/-- Concrete environment for the C9 counterexample: a run whose configured
cask list is empty (the spec's own end-to-end scenario A shape). -/
def envC9 : Env :=
  Env.mk ["jq"] false [] true (fun _ => Except.ok false) [] true
    (fun _ _ => Except.ok "") [("git", false)]

/-- Claim C9 counterexample: a run that got past configuration loading and
tool discovery with config formula = ["git"], cask = [] does not print a
final report — `install_casks` reaches the zero-sized pool and the
`ValueError` escapes `main`, so the process dies with a traceback and a
non-zero exit instead of printing the report. -/
theorem c9_counterexample_no_report_on_empty_casks :
    main_run envC9 ["git"] [] =
      Except.error "ValueError: max_workers must be greater than 0" := rfl

/-- Claim C9 amended: provided the probe stages themselves cannot raise —
the configured cask list is non-empty and no caveat probe raises — a failure
of a batched install/upgrade adapter call never aborts the run: the run
always reaches the final print and exits zero, a failed upgrade batch is
recorded in the report's error section, and caveat collection still executes
and populates the report's info section. -/
theorem c9_mutation_failure_never_aborts (env : Env) (formulae casks : List String)
    (hcask : casks ≠ [])
    (hperm : List.Perm env.caveatOrder (caveatItems formulae casks))
    (hok : ∀ p ∈ env.caveatOrder, isErr (env.caveatAdapter p.1 p.2) = false) :
    ∃ rep, main_run env formulae casks = Except.ok rep ∧
      (env.upgradeOk = false → env.outdated ≠ [] →
        rep.error_upgrade_formula = env.outdated) ∧
      rep.info = env.caveatOrder.filterMap (caveat_finding env.caveatAdapter) := by
  have hitems : caveatItems formulae casks ≠ [] := by
    intro hz
    have hsplit : formulae = [] ∧ casks = [] := by simpa [caveatItems] using hz
    exact hcask hsplit.2
  have hcol := collect_caveats_parallel_ok env.caveatAdapter formulae casks
    env.caveatOrder hitems hok
  obtain ⟨calls, w, r3, hic, hpre⟩ := install_casks_ok_of_ne_nil env.caskProbe casks
    env.caskOrder env.caskInstallOk
    ((install_formulae env.formulaListing env.formulaInstallOk formulae
      ((update_and_upgrade env.outdated env.upgradeOk initial_result).2)).2) hcask
  refine ⟨print_result
    { r3 with info := env.caveatOrder.filterMap (caveat_finding env.caveatAdapter) },
    ?_, ?_, rfl⟩
  · simp only [main_run, hic, hcol]
  · intro hup hout
    have h1 : r3.error_upgrade_formula = env.outdated := by
      rw [hpre, install_formulae_preserves_upgrade]
      rw [hup] at *
      rw [update_and_upgrade_error_record env.outdated initial_result hout]
      rfl
    exact h1

/-- Concrete environment for the C9 witness: failing upgrade batch, cask
batch present, all probes succeed. -/
def envC9W : Env :=
  Env.mk ["jq"] false [] true (fun _ => Except.ok false) ["iterm2"] true
    (fun _ _ => Except.ok "") [("git", false), ("iterm2", true)]

/-- Claim C9 witness. -/
theorem c9_mutation_failure_never_aborts_witness :
    ∃ rep, main_run envC9W ["git"] ["iterm2"] = Except.ok rep ∧
      (envC9W.upgradeOk = false → envC9W.outdated ≠ [] →
        rep.error_upgrade_formula = envC9W.outdated) ∧
      rep.info = envC9W.caveatOrder.filterMap (caveat_finding envC9W.caveatAdapter) :=
  c9_mutation_failure_never_aborts envC9W ["git"] ["iterm2"]
    (by decide) (List.Perm.refl _) (by decide)

end BrewSync
